import Mathlib

/-!
Shallow embedding of the RDA Career Agent chat relay:
the server request handlers of src/server.js and the browser client
state machine of src/frontend-html/script.js, with theorems checking
the behavioural claims of the specification against them.

Strings carried by requests are embedded as lists of characters so that
the trimming performed by the handlers stays elementary; fixed texts
(error messages, field names) stay Lean string literals.
-/

namespace RDA

/-- Wire text: a message body is a sequence of characters. -/
abbrev Str := List Char

/-- The whitespace characters removed by trimming. -/
def isWS (c : Char) : Bool := c == ' ' || c == '\t' || c == '\n' || c == '\r'

/-- Trim whitespace from both ends, as `message.trim()` does in the handlers. -/
def trimStr (s : Str) : Str :=
  ((s.dropWhile isWS).reverse.dropWhile isWS).reverse

/-! ## Server: src/server.js -/

/-- Downstream (OpenAI) failure, as discriminated by `error.code`
in the catch handler of `app.post('/api/chat')`. -/
inductive DownstreamErr where
  | insufficient_quota
  | invalid_api_key
  | rate_limit_exceeded
  | context_length_exceeded
  | other (msg : String)
deriving DecidableEq, Repr

/-- A JSON error envelope sent by the server: HTTP status, the `error`
text, the optional `code` field and the optional `details` field
(`details` is set only for the unclassified case in development mode). -/
structure ErrResp where
  status : Nat
  error : String
  code : Option String
  details : Option String
deriving DecidableEq, Repr

/-- The success body of `POST /api/chat`:
`{ reply, sources, sessionId, timestamp }`. -/
structure ChatOk where
  reply : Str
  sources : List Str
  sessionId : Str
  timestamp : String
deriving DecidableEq, Repr

/-- Result of the chat endpoint: a 200 with a success body, or an error
envelope. -/
inductive ChatResult where
  | ok (status : Nat) (body : ChatOk)
  | err (e : ErrResp)
deriving DecidableEq, Repr

/-- The request body of `POST /api/chat`. `message = none` models a body
whose `message` is absent or not a string (both fail the same
`typeof` validation check). -/
structure ChatReq where
  message : Option Str
  sessionId : Option Str
deriving DecidableEq, Repr

/-- The literal placeholder used when no session id is supplied. -/
def anonymousId : Str := "anonymous".data

/-- `sessionId || 'anonymous'` (line 89 of server.js): a missing or
falsy (empty) session id becomes the placeholder. -/
def sessionIdOf : Option Str → Str
  | some s => if s = [] then anonymousId else s
  | none => anonymousId

/-- The catch handler of `app.post('/api/chat')`, lines 117 to 148:
maps a downstream error code to status, text, `code` and `details`. -/
def mapDownstreamErr (devMode : Bool) : DownstreamErr → ErrResp
  | .insufficient_quota =>
      ⟨429, "API quota exceeded. Please add credits to your OpenAI account.",
        some "quota_exceeded", none⟩
  | .invalid_api_key =>
      ⟨401, "Invalid OpenAI API key. Please check your configuration.",
        some "invalid_key", none⟩
  | .rate_limit_exceeded =>
      ⟨429, "Rate limit exceeded. Please try again in a moment.",
        some "rate_limit", none⟩
  | .context_length_exceeded =>
      ⟨400, "Message too long for the model. Please shorten your message.",
        some "context_length", none⟩
  | .other msg =>
      ⟨500, "An unexpected error occurred. Please try again.",
        some "server_error", if devMode then some msg else none⟩

/-- The `POST /api/chat` handler, lines 65 to 149 of server.js.
`openaiReady` models whether the `openai` client object exists
(the `if (!openai)` check); `downstream` models the OpenAI completion
call on the trimmed message, returning reply text or a coded failure;
`now` models the timestamp taken for the response. -/
def chat (openaiReady : Bool) (devMode : Bool) (now : String)
    (downstream : Str → Except DownstreamErr Str) (req : ChatReq) : ChatResult :=
  match req.message with
  | none =>
      .err ⟨400, "Message is required and must be a non-empty string", none, none⟩
  | some msg =>
      if (trimStr msg).length = 0 then
        .err ⟨400, "Message is required and must be a non-empty string", none, none⟩
      else if 4000 < msg.length then
        .err ⟨400, "Message too long. Please limit to 4000 characters.", none, none⟩
      else if openaiReady = false then
        .err ⟨500, "OpenAI API is not configured. Please check your API key.", none, none⟩
      else
        match downstream (trimStr msg) with
        | .ok reply =>
            .ok 200 ⟨reply, [], sessionIdOf req.sessionId, now⟩
        | .error e => .err (mapDownstreamErr devMode e)

/-- JSON value carried by a health body field. -/
inductive JVal where
  | s (v : String)
  | n (v : Nat)
  | b (v : Bool)
deriving DecidableEq, Repr

/-- `!!process.env.OPENAI_API_KEY`: truthiness of the credential
environment variable (absent and empty are both falsy). -/
def isConfigured : Option String → Bool
  | none => false
  | some k => !k.isEmpty

/-- `process.env.NODE_ENV || 'development'`. -/
def envOr : Option String → String
  | none => "development"
  | some s => if s.isEmpty then "development" else s

/-- The body built by `app.get('/api/health')`, lines 152 to 163 of
server.js, as the literal list of JSON fields in source order. -/
def healthBody (apiKey : Option String) (uptime : Nat) (nodeEnv : Option String)
    (now : String) : List (String × JVal) :=
  [("status", .s "healthy"),
   ("timestamp", .s now),
   ("uptime", .n uptime),
   ("environment", .s (envOr nodeEnv)),
   ("openai_configured", .b (isConfigured apiKey)),
   ("version", .s "1.0.0")]

/-- The health endpoint: a total function, always answering 200 with the
health body (`res.json` defaults the status to 200). -/
def healthEndpoint (apiKey : Option String) (uptime : Nat) (nodeEnv : Option String)
    (now : String) : Nat × List (String × JVal) :=
  (200, healthBody apiKey uptime nodeEnv now)

/-! ## Client: src/frontend-html/script.js -/

/-- `CONFIG.RETRY_ATTEMPTS`. -/
def RETRY_ATTEMPTS : Nat := 3

/-- `CONFIG.MAX_MESSAGE_LENGTH`. -/
def MAX_MESSAGE_LENGTH : Nat := 4000

/-- Client-side trim on Lean strings, via the character-list trim. -/
def strTrim (s : String) : String := String.mk (trimStr s.data)

/-- One transcript entry pushed by `addMessage`. -/
structure ChatMsg where
  role : String
  content : String
  sources : List String
deriving DecidableEq, Repr

/-- The mutable client `state` object together with the two pieces of
rendered status the claims speak about: the connection indicator set by
`updateConnectionStatus` and the dismissible error banner. -/
structure ClientState where
  messages : List ChatMsg
  isLoading : Bool
  retryCount : Nat
  connectionOnline : Bool
  errorBanner : Option String
deriving DecidableEq, Repr

/-- The `canRetry` value computed by the switch in `handleAPIError`
(lines 235 to 261 of script.js). The default branch covers unmapped and
missing codes: retryable exactly when the HTTP status is at least 500. -/
def errCanRetry (code : Option String) (status : Nat) : Bool :=
  match code with
  | some "timeout" => true
  | some "network" => false
  | some "quota_exceeded" => false
  | some "invalid_key" => false
  | some "rate_limit" => true
  | some "context_length" => false
  | _ => decide (500 ≤ status)

/-- The `errorMessage` text chosen by the same switch; the default keeps
the error text of the response when non-empty. -/
def errDisplayMessage (code : Option String) (emsg : String) : String :=
  match code with
  | some "timeout" => "Request timed out. Please try again."
  | some "network" => "Cannot connect to server. Please check if the backend is running."
  | some "quota_exceeded" => "API quota exceeded. Please add credits to your OpenAI account."
  | some "invalid_key" => "Authentication error. Please check the API configuration."
  | some "rate_limit" => "Rate limit exceeded. Please wait a moment and try again."
  | some "context_length" => "Message too long for the model. Please shorten your message."
  | _ => if emsg = "" then "Sorry, something went wrong. Please try again." else emsg

/-- `handleAPIError` (lines 231 to 282 of script.js): append an error
transcript entry, show the banner, set the connection indicator offline
for the network class, and when the class is retryable and the retry
counter is below `RETRY_ATTEMPTS`, increment the counter and schedule
one resend-confirmation prompt. The Bool reports that a prompt was
scheduled. -/
def handleAPIError (st : ClientState) (code : Option String) (status : Nat)
    (emsg : String) : ClientState × Bool :=
  let txt := errDisplayMessage code emsg
  let st1 : ClientState :=
    { messages := st.messages ++ [⟨"error", txt, []⟩]
      isLoading := st.isLoading
      retryCount := st.retryCount
      connectionOnline := if code = some "network" then false else st.connectionOnline
      errorBanner := some txt }
  if errCanRetry code status = true ∧ st1.retryCount < RETRY_ATTEMPTS then
    ({ st1 with retryCount := st1.retryCount + 1 }, true)
  else
    (st1, false)

/-- Outcome of the awaited `sendToAPI` call: a parsed success body, or an
`APIError` with its optional `code` string, HTTP status and text. -/
inductive Outcome where
  | success (reply : String) (sources : List String)
  | failure (code : Option String) (status : Nat) (emsg : String)
deriving DecidableEq, Repr

/-- `handleSendMessage` (lines 141 to 175 of script.js), atomic over one
in-flight request: guard on non-empty trimmed input and not loading,
append the user entry, hide the banner, then on success append the
assistant entry and reset the retry counter, on failure run
`handleAPIError`; `finally` clears the loading flag. The Bool reports
whether a resend-confirmation prompt was scheduled. -/
def sendMessage (st : ClientState) (text : String) (out : Outcome) :
    ClientState × Bool :=
  if strTrim text = "" ∨ st.isLoading = true then (st, false)
  else
    let st1 : ClientState :=
      { st with
        messages := st.messages ++ [⟨"user", strTrim text, []⟩]
        isLoading := true
        errorBanner := none }
    match out with
    | .success reply sources =>
        ({ st1 with
           messages := st1.messages ++ [⟨"assistant", reply, sources⟩]
           retryCount := 0
           isLoading := false }, false)
    | .failure code status emsg =>
        (({ (handleAPIError st1 code status emsg).1 with isLoading := false }),
         (handleAPIError st1 code status emsg).2)

/-- `handleClearChat` (lines 344 to 368 of script.js): no-op without a
confirmation prompt when the transcript is empty; otherwise ask, and on
confirmation empty the transcript and hide the banner. The Bool reports
whether the confirmation prompt was shown. -/
def handleClearChat (st : ClientState) (confirmed : Bool) : ClientState × Bool :=
  if st.messages = [] then (st, false)
  else if confirmed then
    ({ st with messages := [], errorBanner := none }, true)
  else
    (st, true)

/-- `checkBackendHealth` (lines 396 to 412 of script.js): sets the
connection indicator from the health response and touches nothing
else. -/
def checkBackendHealth (st : ClientState) (ok : Bool) : ClientState :=
  { st with connectionOnline := ok }

/-- The `offline` window event handler (lines 445 to 448): indicator
down plus informational banner. -/
def handleOffline (st : ClientState) : ClientState :=
  { st with connectionOnline := false
            errorBanner := some "You are offline. Please check your internet connection." }

/-- A client event: a completed send attempt with its outcome, a clear
action with the confirmation answer, a completed health poll, the
offline event, or dismissing the banner. -/
inductive ClientEvent where
  | send (text : String) (out : Outcome)
  | clear (confirmed : Bool)
  | health (ok : Bool)
  | offline
  | dismissError
deriving DecidableEq, Repr

/-- One event step, counting the resend prompts (0 or 1) it produced. -/
def stepPrompt (st : ClientState) (e : ClientEvent) : ClientState × Nat :=
  match e with
  | .send text out =>
      ((sendMessage st text out).1, if (sendMessage st text out).2 then 1 else 0)
  | .clear c => ((handleClearChat st c).1, 0)
  | .health ok => (checkBackendHealth st ok, 0)
  | .offline => (handleOffline st, 0)
  | .dismissError => ({ st with errorBanner := none }, 0)

/-- Run a sequence of events, accumulating the resend-prompt count. -/
def runPrompt (st : ClientState) : List ClientEvent → ClientState × Nat
  | [] => (st, 0)
  | e :: rest =>
      ((runPrompt (stepPrompt st e).1 rest).1,
       (stepPrompt st e).2 + (runPrompt (stepPrompt st e).1 rest).2)

/-- A send event whose outcome was a success (the only event that resets
the retry counter). -/
def isSuccessSend : ClientEvent → Bool
  | .send _ (.success _ _) => true
  | _ => false

/-! ## Helper lemmas -/

/-- Trimming never lengthens a message. -/
theorem trimStr_length_le (s : Str) : (trimStr s).length ≤ s.length := by
  unfold trimStr
  calc ((s.dropWhile isWS).reverse.dropWhile isWS).reverse.length
      = ((s.dropWhile isWS).reverse.dropWhile isWS).length := List.length_reverse _
    _ ≤ (s.dropWhile isWS).reverse.length :=
        (List.dropWhile_sublist (p := isWS)).length_le
    _ = (s.dropWhile isWS).length := List.length_reverse _
    _ ≤ s.length := (List.dropWhile_sublist (p := isWS)).length_le

theorem dropWhile_isWS_replicate (n : Nat) (c : Char) (hc : isWS c = false) :
    (List.replicate n c).dropWhile isWS = List.replicate n c := by
  cases n with
  | zero => simp
  | succ m => simp [List.replicate_succ, List.dropWhile_cons, hc]

/-- A replicated non-whitespace character trims to itself. -/
theorem trimStr_replicate (n : Nat) (c : Char) (hc : isWS c = false) :
    trimStr (List.replicate n c) = List.replicate n c := by
  unfold trimStr
  rw [dropWhile_isWS_replicate n c hc, List.reverse_replicate,
    dropWhile_isWS_replicate n c hc, List.reverse_replicate]

/-- A replicated non-whitespace character padded by one trailing space
trims to the replication alone. -/
theorem trimStr_replicate_pad (n : Nat) (c : Char) (hc : isWS c = false)
    (hn : 0 < n) : trimStr (List.replicate n c ++ [' ']) = List.replicate n c := by
  obtain ⟨m, rfl⟩ : ∃ m, n = m + 1 := ⟨n - 1, by omega⟩
  unfold trimStr
  have h1 : (List.replicate (m + 1) c ++ [' ']).dropWhile isWS
      = List.replicate (m + 1) c ++ [' '] := by
    simp [List.replicate_succ, List.dropWhile_cons, hc]
  rw [h1, List.reverse_append, List.reverse_replicate]
  have h2 : (([' '].reverse) ++ List.replicate (m + 1) c).dropWhile isWS
      = List.replicate (m + 1) c := by
    simp only [List.reverse_singleton, List.singleton_append, List.dropWhile_cons]
    simp [isWS, dropWhile_isWS_replicate (m + 1) c hc]
  rw [h2, List.reverse_replicate]

/-- Evaluation of the chat handler on a valid request against a
successful downstream call. -/
theorem chat_valid_ok (devMode : Bool) (now : String)
    (ds : Str → Except DownstreamErr Str) (msg reply : Str) (sid : Option Str)
    (htrim : trimStr msg ≠ []) (hlen : msg.length ≤ 4000)
    (hds : ds (trimStr msg) = Except.ok reply) :
    chat true devMode now ds ⟨some msg, sid⟩ =
      ChatResult.ok 200 ⟨reply, [], sessionIdOf sid, now⟩ := by
  unfold chat
  have h0 : ¬ (trimStr msg).length = 0 := by
    simpa [List.length_eq_zero] using htrim
  have h1 : ¬ 4000 < msg.length := by omega
  simp only [h0, if_false, h1, if_false]
  simp [hds]

/-- Evaluation of the chat handler on a valid request against a failing
downstream call. -/
theorem chat_valid_err (devMode : Bool) (now : String)
    (ds : Str → Except DownstreamErr Str) (msg : Str) (derr : DownstreamErr)
    (sid : Option Str)
    (htrim : trimStr msg ≠ []) (hlen : msg.length ≤ 4000)
    (hds : ds (trimStr msg) = Except.error derr) :
    chat true devMode now ds ⟨some msg, sid⟩ =
      ChatResult.err (mapDownstreamErr devMode derr) := by
  unfold chat
  have h0 : ¬ (trimStr msg).length = 0 := by
    simpa [List.length_eq_zero] using htrim
  have h1 : ¬ 4000 < msg.length := by omega
  simp only [h0, if_false, h1, if_false]
  simp [hds]

/-- One step never produces more than one resend prompt. -/
theorem stepPrompt_le_one (st : ClientState) (e : ClientEvent) :
    (stepPrompt st e).2 ≤ 1 := by
  cases e <;> simp only [stepPrompt] <;> first
    | (split <;> simp)
    | simp

/-- One step keeps the retry counter within the configured bound. -/
theorem stepPrompt_retry_le (st : ClientState) (e : ClientEvent)
    (h : st.retryCount ≤ RETRY_ATTEMPTS) :
    (stepPrompt st e).1.retryCount ≤ RETRY_ATTEMPTS := by
  cases e with
  | send text out =>
      simp only [stepPrompt]
      cases out with
      | success r s =>
          simp only [sendMessage]
          split
          · simpa using h
          · simp
      | failure code status emsg =>
          simp only [sendMessage]
          split
          · simpa using h
          · simp only [handleAPIError]
            split
            · next hc => simpa using hc.2
            · simpa using h
  | clear c =>
      simp only [stepPrompt, handleClearChat]
      split
      · simpa using h
      · split <;> simpa using h
  | health ok => simpa [stepPrompt, checkBackendHealth] using h
  | offline => simpa [stepPrompt, handleOffline] using h
  | dismissError => simpa [stepPrompt] using h

/-- Outside success, the retry counter grows by exactly the number of
prompts the step produced. -/
theorem stepPrompt_retry_eq (st : ClientState) (e : ClientEvent)
    (he : isSuccessSend e = false) :
    (stepPrompt st e).1.retryCount = st.retryCount + (stepPrompt st e).2 := by
  cases e with
  | send text out =>
      cases out with
      | success r s => simp [isSuccessSend] at he
      | failure code status emsg =>
          simp only [stepPrompt, sendMessage]
          split
          · simp
          · simp only [handleAPIError]
            split
            · simp
            · simp
  | clear c =>
      simp only [stepPrompt, handleClearChat]
      split
      · simp
      · split <;> simp
  | health ok => simp [stepPrompt, checkBackendHealth]
  | offline => simp [stepPrompt, handleOffline]
  | dismissError => simp [stepPrompt]

/-- Running events keeps the retry counter within the bound. -/
theorem runPrompt_retry_le (es : List ClientEvent) (st : ClientState)
    (h : st.retryCount ≤ RETRY_ATTEMPTS) :
    (runPrompt st es).1.retryCount ≤ RETRY_ATTEMPTS := by
  induction es generalizing st with
  | nil => simpa [runPrompt] using h
  | cons e rest ih =>
      simp only [runPrompt]
      exact ih _ (stepPrompt_retry_le st e h)

/-- Over a success-free run, prompts emitted are exactly the growth of
the retry counter. -/
theorem runPrompt_retry_eq (es : List ClientEvent) (st : ClientState)
    (he : ∀ e ∈ es, isSuccessSend e = false) :
    (runPrompt st es).1.retryCount = st.retryCount + (runPrompt st es).2 := by
  induction es generalizing st with
  | nil => simp [runPrompt]
  | cons e rest ih =>
      simp only [runPrompt]
      rw [ih _ (fun x hx => he x (List.mem_cons_of_mem e hx)),
        stepPrompt_retry_eq st e (he e (List.mem_cons_self e rest))]
      omega

/-! ## Claim theorems -/

/-- C7: every chat request whose message trims to the empty string,
whatever whitespace padding it carried (including the empty message
itself), gets HTTP 400 with the text
"Message is required and must be a non-empty string". -/
theorem chat_empty_trim_validation (ready devMode : Bool) (now : String)
    (ds : Str → Except DownstreamErr Str) (sid : Option Str) (msg : Str)
    (h : trimStr msg = []) :
    chat ready devMode now ds ⟨some msg, sid⟩ =
      ChatResult.err
        ⟨400, "Message is required and must be a non-empty string", none, none⟩ := by
  unfold chat
  simp [h]

/-- Witness for C7 at the all-whitespace message of three spaces and at
the empty message. -/
theorem chat_empty_trim_validation_witness :
    chat true false "t" (fun _ => Except.ok "r".data) ⟨some "   ".data, none⟩ =
      ChatResult.err
        ⟨400, "Message is required and must be a non-empty string", none, none⟩ ∧
    chat true false "t" (fun _ => Except.ok "r".data) ⟨some [], some "s1".data⟩ =
      ChatResult.err
        ⟨400, "Message is required and must be a non-empty string", none, none⟩ :=
  ⟨chat_empty_trim_validation true false "t" (fun _ => Except.ok "r".data)
      none "   ".data (by decide),
   chat_empty_trim_validation true false "t" (fun _ => Except.ok "r".data)
      (some "s1".data) [] (by decide)⟩

/-- The message of 4000 letters padded with one trailing space: trimmed
length exactly the maximum, raw length above it. -/
def paddedMsg : Str := List.replicate 4000 'a' ++ [' ']

/-- C1 counterexample: a request whose trimmed length is exactly the
maximum (4000) is nevertheless rejected by the length check, because the
check applies to the raw message length (4001 here), refuting the
boundary half of the claim. -/
theorem chat_trimmed_max_still_rejected :
    (trimStr paddedMsg).length = 4000 ∧
    chat true false "t" (fun _ => Except.ok "r".data) ⟨some paddedMsg, none⟩ =
      ChatResult.err
        ⟨400, "Message too long. Please limit to 4000 characters.", none, none⟩ := by
  have h : trimStr paddedMsg = List.replicate 4000 'a' :=
    trimStr_replicate_pad 4000 'a' (by decide) (by omega)
  constructor
  · rw [h, List.length_replicate]
  · unfold chat
    have h0 : ¬ (trimStr paddedMsg).length = 0 := by
      rw [h, List.length_replicate]
      omega
    have h1 : 4000 < paddedMsg.length := by
      unfold paddedMsg
      rw [List.length_append, List.length_replicate, List.length_singleton]
      omega
    simp only [h0, if_false, h1, if_true]

/-- C1 (amended): a message whose trimmed length exceeds the maximum is
always rejected with the 400 length error; a message of exactly the
maximum length with no surrounding whitespace (so the raw length the
check uses also equals the maximum) passes the length check and succeeds
when the downstream call succeeds. -/
theorem chat_length_boundary (devMode : Bool) (now : String)
    (ds : Str → Except DownstreamErr Str) (sid : Option Str) (msg reply : Str)
    (hlen : msg.length = 4000) (htrim : trimStr msg = msg)
    (hds : ds (trimStr msg) = Except.ok reply) :
    (∀ (ready : Bool) (m : Str), 4000 < (trimStr m).length →
        chat ready devMode now ds ⟨some m, sid⟩ =
          ChatResult.err
            ⟨400, "Message too long. Please limit to 4000 characters.", none, none⟩) ∧
    chat true devMode now ds ⟨some msg, sid⟩ =
      ChatResult.ok 200 ⟨reply, [], sessionIdOf sid, now⟩ := by
  constructor
  · intro ready m hm
    have hml : 4000 < m.length := lt_of_lt_of_le hm (trimStr_length_le m)
    have h0 : ¬ (trimStr m).length = 0 := by omega
    unfold chat
    simp only [h0, if_false, hml, if_true]
  · have hne : trimStr msg ≠ [] := by
      rw [htrim]
      intro hc
      rw [hc] at hlen
      simp at hlen
    exact chat_valid_ok devMode now ds msg reply sid hne (le_of_eq hlen) hds

/-- Witness for C1 at the unpadded message of 4000 letters. -/
theorem chat_length_boundary_witness :
    (∀ (ready : Bool) (m : Str), 4000 < (trimStr m).length →
        chat ready false "t" (fun _ => Except.ok "r".data) ⟨some m, some "s1".data⟩ =
          ChatResult.err
            ⟨400, "Message too long. Please limit to 4000 characters.", none, none⟩) ∧
    chat true false "t" (fun _ => Except.ok "r".data)
        ⟨some (List.replicate 4000 'a'), some "s1".data⟩ =
      ChatResult.ok 200 ⟨"r".data, [], sessionIdOf (some "s1".data), "t"⟩ :=
  chat_length_boundary false "t" (fun _ => Except.ok "r".data) (some "s1".data)
    (List.replicate 4000 'a') "r".data (List.length_replicate 4000 'a')
    (trimStr_replicate 4000 'a' (by decide)) rfl

/-- The error taxonomy of the specification with its fixed statuses. -/
def specTaxonomy : List (String × Nat) :=
  [("validation", 400), ("quota_exceeded", 429), ("invalid_key", 401),
   ("rate_limit", 429), ("context_length", 400), ("timeout", 408),
   ("server_error", 500)]

/-- The code and status pairs actually attached by the catch handler of
server.js. -/
def serverCodes : List (String × Nat) :=
  [("quota_exceeded", 429), ("invalid_key", 401), ("rate_limit", 429),
   ("context_length", 400), ("server_error", 500)]

/-- C2 counterexample: not every chat failure carries a `code` field
from the taxonomy; the validation failure for the empty message carries
no `code` field at all. -/
theorem chat_failure_without_code :
    ¬ (∀ (ready devMode : Bool) (now : String)
        (ds : Str → Except DownstreamErr Str) (req : ChatReq) (e : ErrResp),
        chat ready devMode now ds req = ChatResult.err e →
        ∃ c, e.code = some c ∧ (c, e.status) ∈ specTaxonomy) := by
  intro hclaim
  obtain ⟨c, hc, -⟩ :=
    hclaim true false "t" (fun _ => Except.ok []) ⟨some [], none⟩
      ⟨400, "Message is required and must be a non-empty string", none, none⟩ rfl
  exact Option.noConfusion hc

/-- C2 (amended): every failure of the chat operation either carries no
`code` field (the validation failures, status 400, and the
missing-credential failure, status 500) or carries a `code` attached by
the downstream catch handler, drawn from quota_exceeded (429),
invalid_key (401), rate_limit (429), context_length (400), server_error
(500); in particular the server never emits the codes `validation` or
`timeout`. -/
theorem chat_error_code_discipline (ready devMode : Bool) (now : String)
    (ds : Str → Except DownstreamErr Str) (req : ChatReq) (e : ErrResp)
    (h : chat ready devMode now ds req = ChatResult.err e) :
    (e.code = none ∧ (e.status = 400 ∨ e.status = 500)) ∨
    (∃ c, e.code = some c ∧ (c, e.status) ∈ serverCodes) := by
  obtain ⟨m, sid⟩ := req
  cases m with
  | none =>
      simp only [chat, ChatResult.err.injEq] at h
      subst h
      left
      exact ⟨rfl, Or.inl rfl⟩
  | some msg =>
      simp only [chat] at h
      split at h
      · simp only [ChatResult.err.injEq] at h
        subst h
        left
        exact ⟨rfl, Or.inl rfl⟩
      · split at h
        · simp only [ChatResult.err.injEq] at h
          subst h
          left
          exact ⟨rfl, Or.inl rfl⟩
        · split at h
          · simp only [ChatResult.err.injEq] at h
            subst h
            left
            exact ⟨rfl, Or.inr rfl⟩
          · split at h
            · exact absurd h (by simp)
            · simp only [ChatResult.err.injEq] at h
              subst h
              rename_i derr _
              cases derr with
              | insufficient_quota =>
                  right
                  refine ⟨"quota_exceeded", rfl, ?_⟩
                  show ("quota_exceeded", (429 : Nat)) ∈ serverCodes
                  decide
              | invalid_api_key =>
                  right
                  refine ⟨"invalid_key", rfl, ?_⟩
                  show ("invalid_key", (401 : Nat)) ∈ serverCodes
                  decide
              | rate_limit_exceeded =>
                  right
                  refine ⟨"rate_limit", rfl, ?_⟩
                  show ("rate_limit", (429 : Nat)) ∈ serverCodes
                  decide
              | context_length_exceeded =>
                  right
                  refine ⟨"context_length", rfl, ?_⟩
                  show ("context_length", (400 : Nat)) ∈ serverCodes
                  decide
              | other dmsg =>
                  right
                  refine ⟨"server_error", rfl, ?_⟩
                  show ("server_error", (500 : Nat)) ∈ serverCodes
                  decide

/-- Witness for C2 at a quota failure of the downstream call. -/
theorem chat_error_code_discipline_witness :
    ((⟨429, "API quota exceeded. Please add credits to your OpenAI account.",
        some "quota_exceeded", none⟩ : ErrResp).code = none ∧
      ((429 : Nat) = 400 ∨ (429 : Nat) = 500)) ∨
    (∃ c, (⟨429, "API quota exceeded. Please add credits to your OpenAI account.",
        some "quota_exceeded", none⟩ : ErrResp).code = some c ∧
      (c, (429 : Nat)) ∈ serverCodes) :=
  chat_error_code_discipline true false "t"
    (fun _ => Except.error DownstreamErr.insufficient_quota)
    ⟨some "hi".data, none⟩
    ⟨429, "API quota exceeded. Please add credits to your OpenAI account.",
      some "quota_exceeded", none⟩ rfl

/-- C3 counterexample: clearing a non-empty transcript with confirmation
does empty the transcript but does not reset the retry counter; from a
state with retry counter 2 the counter stays 2. -/
theorem clear_chat_keeps_retry_counter :
    ¬ ((handleClearChat ⟨[⟨"user", "hi", []⟩], false, 2, true, none⟩ true).1.messages = []
        ∧ (handleClearChat ⟨[⟨"user", "hi", []⟩], false, 2, true, none⟩ true).1.retryCount = 0) := by
  decide

/-- C3 (amended): clearing a non-empty transcript asks for confirmation
and on confirmation empties the transcript, leaving the retry counter
unchanged (it is not reset) and the connection indicator untouched;
clearing an empty transcript is a no-op that shows no confirmation
prompt. -/
theorem clear_chat_behaviour (st : ClientState) (confirmed : Bool) :
    (st.messages = [] → handleClearChat st confirmed = (st, false)) ∧
    (st.messages ≠ [] →
      (handleClearChat st true).1.messages = [] ∧
      (handleClearChat st true).1.retryCount = st.retryCount ∧
      (handleClearChat st true).1.connectionOnline = st.connectionOnline ∧
      (handleClearChat st confirmed).2 = true ∧
      (handleClearChat st false).1 = st) := by
  constructor
  · intro h
    simp [handleClearChat, h]
  · intro h
    cases confirmed <;> simp [handleClearChat, h]

/-- Witness for C3 at a state with one message and retry counter 2. -/
theorem clear_chat_behaviour_witness :
    (handleClearChat ⟨[⟨"user", "hi", []⟩], false, 2, true, none⟩ true).1.messages = [] ∧
    (handleClearChat ⟨[⟨"user", "hi", []⟩], false, 2, true, none⟩ true).1.retryCount =
      (⟨[⟨"user", "hi", []⟩], false, 2, true, none⟩ : ClientState).retryCount ∧
    (handleClearChat ⟨[⟨"user", "hi", []⟩], false, 2, true, none⟩ true).1.connectionOnline =
      (⟨[⟨"user", "hi", []⟩], false, 2, true, none⟩ : ClientState).connectionOnline ∧
    (handleClearChat ⟨[⟨"user", "hi", []⟩], false, 2, true, none⟩ true).2 = true ∧
    (handleClearChat ⟨[⟨"user", "hi", []⟩], false, 2, true, none⟩ false).1 =
      ⟨[⟨"user", "hi", []⟩], false, 2, true, none⟩ :=
  (clear_chat_behaviour ⟨[⟨"user", "hi", []⟩], false, 2, true, none⟩ true).2 (by decide)

/-- C4 counterexample: a chat attempt failing with code network, with
the retry counter at 0 (below the configured maximum of 3), schedules no
resend prompt at all. -/
theorem network_failure_does_not_prompt :
    (⟨[], false, 0, true, none⟩ : ClientState).retryCount < RETRY_ATTEMPTS ∧
    (sendMessage ⟨[], false, 0, true, none⟩ "hello"
        (Outcome.failure (some "network") 0
          "Cannot connect to server. Please check if the backend is running.")).2
      = false := by
  decide

/-- C4 (amended): the network class is not retryable in the client: a
network-failed attempt never schedules a resend prompt, whatever the
retry counter; instead it marks the connection indicator offline. The
classes that do prompt while the counter is below the maximum include
timeout and rate_limit. -/
theorem network_error_no_retry_prompt (st : ClientState) (text : String)
    (status : Nat) (emsg : String)
    (hguard : ¬ (strTrim text = "" ∨ st.isLoading = true)) :
    (sendMessage st text (Outcome.failure (some "network") status emsg)).2 = false ∧
    (sendMessage st text
        (Outcome.failure (some "network") status emsg)).1.connectionOnline = false ∧
    (st.retryCount < RETRY_ATTEMPTS →
      (sendMessage st text (Outcome.failure (some "timeout") 408 emsg)).2 = true ∧
      (sendMessage st text (Outcome.failure (some "rate_limit") 429 emsg)).2 = true) := by
  have hnet : errCanRetry (some "network") status = false := rfl
  have htime : errCanRetry (some "timeout") 408 = true := rfl
  have hrate : errCanRetry (some "rate_limit") 429 = true := rfl
  refine ⟨?_, ?_, ?_⟩
  · simp [sendMessage, hguard, handleAPIError, hnet]
  · simp [sendMessage, hguard, handleAPIError, hnet]
  · intro hrc
    constructor
    · simp [sendMessage, hguard, handleAPIError, htime, hrc]
    · simp [sendMessage, hguard, handleAPIError, hrate, hrc]

/-- Witness for C4 at an idle state and the message "hello". -/
theorem network_error_no_retry_prompt_witness :
    (sendMessage ⟨[], false, 0, true, none⟩ "hello"
        (Outcome.failure (some "network") 0 "x")).2 = false ∧
    (sendMessage ⟨[], false, 0, true, none⟩ "hello"
        (Outcome.failure (some "network") 0 "x")).1.connectionOnline = false ∧
    ((⟨[], false, 0, true, none⟩ : ClientState).retryCount < RETRY_ATTEMPTS →
      (sendMessage ⟨[], false, 0, true, none⟩ "hello"
          (Outcome.failure (some "timeout") 408 "x")).2 = true ∧
      (sendMessage ⟨[], false, 0, true, none⟩ "hello"
          (Outcome.failure (some "rate_limit") 429 "x")).2 = true) :=
  network_error_no_retry_prompt ⟨[], false, 0, true, none⟩ "hello" 0 "x" (by decide)

/-- C5 counterexample: the health body has no field named `configured`;
the configuration flag is the field named `openai_configured`. -/
theorem health_body_no_configured_field :
    (healthBody none 0 none "now").lookup "configured" = none ∧
    (healthBody none 0 none "now").lookup "openai_configured" = some (JVal.b false) := by
  decide

/-- C5 (amended): the health operation is a total function that always
answers 200; its body carries status "healthy", the timestamp, the
uptime, the environment, the version, and a boolean field named
`openai_configured` (not `configured`) that is false exactly when the
downstream credential is absent or empty. -/
theorem health_endpoint_spec (apiKey : Option String) (uptime : Nat)
    (nodeEnv : Option String) (now : String) :
    (healthEndpoint apiKey uptime nodeEnv now).1 = 200 ∧
    (healthEndpoint apiKey uptime nodeEnv now).2.lookup "status"
      = some (JVal.s "healthy") ∧
    (healthEndpoint apiKey uptime nodeEnv now).2.lookup "timestamp"
      = some (JVal.s now) ∧
    (healthEndpoint apiKey uptime nodeEnv now).2.lookup "uptime"
      = some (JVal.n uptime) ∧
    (healthEndpoint apiKey uptime nodeEnv now).2.lookup "environment"
      = some (JVal.s (envOr nodeEnv)) ∧
    (healthEndpoint apiKey uptime nodeEnv now).2.lookup "version"
      = some (JVal.s "1.0.0") ∧
    ((healthEndpoint apiKey uptime nodeEnv now).2.lookup "openai_configured"
        = some (JVal.b false) ↔ (apiKey = none ∨ apiKey = some "")) := by
  refine ⟨rfl, rfl, rfl, rfl, rfl, rfl, ?_⟩
  cases apiKey with
  | none => simp [healthEndpoint, healthBody, List.lookup, isConfigured]
  | some k =>
      simp [healthEndpoint, healthBody, List.lookup, isConfigured,
        String.isEmpty_iff]

/-- C6 counterexample: a request that does supply a sessionId, the empty
string, gets back the placeholder "anonymous" rather than the supplied
value. -/
theorem empty_sessionId_not_echoed :
    chat true false "t" (fun _ => Except.ok "r".data) ⟨some "hi".data, some []⟩ =
      ChatResult.ok 200 ⟨"r".data, [], anonymousId, "t"⟩ ∧
    anonymousId ≠ ([] : Str) := by
  decide

/-- C6 (amended): for a chat request that succeeds downstream, the
response sessionId equals the request sessionId when a non-empty one was
provided, and equals the literal "anonymous" when the request carried no
sessionId (an empty provided sessionId also becomes "anonymous"). -/
theorem chat_sessionId_echo (devMode : Bool) (now : String)
    (ds : Str → Except DownstreamErr Str) (msg reply s : Str)
    (hne : s ≠ []) (htrim : trimStr msg ≠ []) (hlen : msg.length ≤ 4000)
    (hds : ds (trimStr msg) = Except.ok reply) :
    chat true devMode now ds ⟨some msg, some s⟩ =
      ChatResult.ok 200 ⟨reply, [], s, now⟩ ∧
    chat true devMode now ds ⟨some msg, none⟩ =
      ChatResult.ok 200 ⟨reply, [], anonymousId, now⟩ := by
  constructor
  · rw [chat_valid_ok devMode now ds msg reply (some s) htrim hlen hds]
    simp [sessionIdOf, hne]
  · rw [chat_valid_ok devMode now ds msg reply none htrim hlen hds]
    rfl

/-- Witness for C6 at the message "hi" and the session id "s1". -/
theorem chat_sessionId_echo_witness :
    chat true false "t" (fun _ => Except.ok "r".data) ⟨some "hi".data, some "s1".data⟩ =
      ChatResult.ok 200 ⟨"r".data, [], "s1".data, "t"⟩ ∧
    chat true false "t" (fun _ => Except.ok "r".data) ⟨some "hi".data, none⟩ =
      ChatResult.ok 200 ⟨"r".data, [], anonymousId, "t"⟩ :=
  chat_sessionId_echo false "t" (fun _ => Except.ok "r".data) "hi".data "r".data
    "s1".data (by decide) (by decide) (by decide) rfl

/-- C8: the retry counter is bounded: starting within the bound it never
exceeds RETRY_ATTEMPTS (3) over any sequence of client events; one step
produces at most one resend prompt; over any success-free stretch of
events, the prompts for the original message together with the starting
counter never exceed the bound; and a successful send resets the counter
to zero. -/
theorem retry_counter_invariant (es : List ClientEvent) (st : ClientState)
    (h0 : st.retryCount ≤ RETRY_ATTEMPTS) :
    (runPrompt st es).1.retryCount ≤ RETRY_ATTEMPTS ∧
    (∀ (s : ClientState) (e : ClientEvent), (stepPrompt s e).2 ≤ 1) ∧
    ((∀ e ∈ es, isSuccessSend e = false) →
      st.retryCount + (runPrompt st es).2 ≤ RETRY_ATTEMPTS) ∧
    (∀ (s : ClientState) (text reply : String) (srcs : List String),
      s.isLoading = false → strTrim text ≠ "" →
      (stepPrompt s (ClientEvent.send text (Outcome.success reply srcs))).1.retryCount
        = 0) := by
  refine ⟨runPrompt_retry_le es st h0, stepPrompt_le_one, ?_, ?_⟩
  · intro hn
    have heq := runPrompt_retry_eq es st hn
    have hle := runPrompt_retry_le es st h0
    omega
  · intro s text reply srcs hload htext
    have hng : ¬ (strTrim text = "" ∨ s.isLoading = true) := by
      simp [hload, htext]
    simp only [stepPrompt, sendMessage]
    rw [if_neg hng]

/-- Witness for C8: three timeout failures followed by a fourth; only
three prompts fit the bound, and a success resets the counter. -/
theorem retry_counter_invariant_witness :
    (runPrompt ⟨[], false, 0, true, none⟩
        [ClientEvent.send "hi" (Outcome.failure (some "timeout") 408 "x"),
         ClientEvent.send "hi" (Outcome.failure (some "timeout") 408 "x"),
         ClientEvent.send "hi" (Outcome.failure (some "timeout") 408 "x"),
         ClientEvent.send "hi" (Outcome.failure (some "timeout") 408 "x")]).1.retryCount
      ≤ RETRY_ATTEMPTS ∧
    (stepPrompt ⟨[], false, 1, true, none⟩
        (ClientEvent.send "hi" (Outcome.failure (some "timeout") 408 "x"))).2 ≤ 1 ∧
    (⟨[], false, 0, true, none⟩ : ClientState).retryCount +
      (runPrompt ⟨[], false, 0, true, none⟩
        [ClientEvent.send "hi" (Outcome.failure (some "timeout") 408 "x"),
         ClientEvent.send "hi" (Outcome.failure (some "timeout") 408 "x"),
         ClientEvent.send "hi" (Outcome.failure (some "timeout") 408 "x"),
         ClientEvent.send "hi" (Outcome.failure (some "timeout") 408 "x")]).2
      ≤ RETRY_ATTEMPTS ∧
    (stepPrompt ⟨[], false, 2, true, none⟩
        (ClientEvent.send "hi" (Outcome.success "r" []))).1.retryCount = 0 :=
  ⟨(retry_counter_invariant
      [ClientEvent.send "hi" (Outcome.failure (some "timeout") 408 "x"),
       ClientEvent.send "hi" (Outcome.failure (some "timeout") 408 "x"),
       ClientEvent.send "hi" (Outcome.failure (some "timeout") 408 "x"),
       ClientEvent.send "hi" (Outcome.failure (some "timeout") 408 "x")]
      ⟨[], false, 0, true, none⟩ (by decide)).1,
   (retry_counter_invariant [] ⟨[], false, 0, true, none⟩ (by decide)).2.1
      ⟨[], false, 1, true, none⟩
      (ClientEvent.send "hi" (Outcome.failure (some "timeout") 408 "x")),
   (retry_counter_invariant
      [ClientEvent.send "hi" (Outcome.failure (some "timeout") 408 "x"),
       ClientEvent.send "hi" (Outcome.failure (some "timeout") 408 "x"),
       ClientEvent.send "hi" (Outcome.failure (some "timeout") 408 "x"),
       ClientEvent.send "hi" (Outcome.failure (some "timeout") 408 "x")]
      ⟨[], false, 0, true, none⟩ (by decide)).2.2.1 (by decide),
   (retry_counter_invariant [] ⟨[], false, 0, true, none⟩ (by decide)).2.2.2
      ⟨[], false, 2, true, none⟩ "hi" "r" [] rfl (by decide)⟩

/-- C9 counterexample: the chat-sending path is not disjoint from the
connection indicator: a send attempt failing with the network class
flips the indicator from online to offline. -/
theorem send_network_touches_connection :
    (⟨[], false, 0, true, none⟩ : ClientState).connectionOnline = true ∧
    (stepPrompt ⟨[], false, 0, true, none⟩
        (ClientEvent.send "hi"
          (Outcome.failure (some "network") 0 "x"))).1.connectionOnline = false := by
  decide

/-- C9 (amended): health polling touches only the connection indicator,
never the transcript, the loading flag or the retry counter; the
chat-sending path preserves the connection indicator in the success
branch and in every error branch except the network class, which sets
the indicator offline. -/
theorem health_send_frame (st : ClientState) (ok : Bool) (text : String) :
    (checkBackendHealth st ok).messages = st.messages ∧
    (checkBackendHealth st ok).isLoading = st.isLoading ∧
    (checkBackendHealth st ok).retryCount = st.retryCount ∧
    (∀ (reply : String) (srcs : List String),
      (sendMessage st text (Outcome.success reply srcs)).1.connectionOnline
        = st.connectionOnline) ∧
    (∀ (code : Option String) (status : Nat) (emsg : String),
      code ≠ some "network" →
      (sendMessage st text (Outcome.failure code status emsg)).1.connectionOnline
        = st.connectionOnline) ∧
    (∀ (status : Nat) (emsg : String),
      ¬ (strTrim text = "" ∨ st.isLoading = true) →
      (sendMessage st text
          (Outcome.failure (some "network") status emsg)).1.connectionOnline
        = false) := by
  refine ⟨rfl, rfl, rfl, ?_, ?_, ?_⟩
  · intro reply srcs
    simp only [sendMessage]
    split
    · rfl
    · simp
  · intro code status emsg hcode
    simp only [sendMessage]
    split
    · rfl
    · simp only [handleAPIError]
      split <;> simp [hcode]
  · intro status emsg hguard
    simp only [sendMessage]
    rw [if_neg hguard]
    simp only [handleAPIError]
    split <;> simp

/-- Witness for C9 at a loaded concrete state, a timeout failure and a
network failure. -/
theorem health_send_frame_witness :
    (checkBackendHealth ⟨[], false, 1, true, none⟩ false).messages =
      (⟨[], false, 1, true, none⟩ : ClientState).messages ∧
    (checkBackendHealth ⟨[], false, 1, true, none⟩ false).isLoading =
      (⟨[], false, 1, true, none⟩ : ClientState).isLoading ∧
    (checkBackendHealth ⟨[], false, 1, true, none⟩ false).retryCount =
      (⟨[], false, 1, true, none⟩ : ClientState).retryCount ∧
    (sendMessage ⟨[], false, 1, true, none⟩ "hi"
        (Outcome.success "r" [])).1.connectionOnline =
      (⟨[], false, 1, true, none⟩ : ClientState).connectionOnline ∧
    (sendMessage ⟨[], false, 1, true, none⟩ "hi"
        (Outcome.failure (some "timeout") 408 "x")).1.connectionOnline =
      (⟨[], false, 1, true, none⟩ : ClientState).connectionOnline ∧
    (sendMessage ⟨[], false, 1, true, none⟩ "hi"
        (Outcome.failure (some "network") 0 "x")).1.connectionOnline = false :=
  ⟨(health_send_frame ⟨[], false, 1, true, none⟩ false "hi").1,
   (health_send_frame ⟨[], false, 1, true, none⟩ false "hi").2.1,
   (health_send_frame ⟨[], false, 1, true, none⟩ false "hi").2.2.1,
   (health_send_frame ⟨[], false, 1, true, none⟩ false "hi").2.2.2.1 "r" [],
   (health_send_frame ⟨[], false, 1, true, none⟩ false "hi").2.2.2.2.1
      (some "timeout") 408 "x" (by decide),
   (health_send_frame ⟨[], false, 1, true, none⟩ false "hi").2.2.2.2.2 0 "x"
      (by decide)⟩

/-- C10: a chat request whose sessionId is present but empty is treated
exactly as if the sessionId were absent: the whole handler answers
identically, and on downstream success the response sessionId is the
literal "anonymous". -/
theorem chat_empty_sessionId_as_absent (ready devMode : Bool) (now : String)
    (ds : Str → Except DownstreamErr Str) (m : Option Str) (msg reply : Str)
    (htrim : trimStr msg ≠ []) (hlen : msg.length ≤ 4000)
    (hds : ds (trimStr msg) = Except.ok reply) :
    chat ready devMode now ds ⟨m, some []⟩ = chat ready devMode now ds ⟨m, none⟩ ∧
    chat true devMode now ds ⟨some msg, some []⟩ =
      ChatResult.ok 200 ⟨reply, [], anonymousId, now⟩ := by
  constructor
  · unfold chat
    cases m with
    | none => rfl
    | some mm => simp [sessionIdOf]
  · rw [chat_valid_ok devMode now ds msg reply (some []) htrim hlen hds]
    rfl

/-- Witness for C10 at the message "hi" with the empty session id. -/
theorem chat_empty_sessionId_as_absent_witness :
    chat true false "t" (fun _ => Except.ok "r".data) ⟨some "hi".data, some []⟩ =
      chat true false "t" (fun _ => Except.ok "r".data) ⟨some "hi".data, none⟩ ∧
    chat true false "t" (fun _ => Except.ok "r".data) ⟨some "hi".data, some []⟩ =
      ChatResult.ok 200 ⟨"r".data, [], anonymousId, "t"⟩ :=
  chat_empty_sessionId_as_absent true false "t" (fun _ => Except.ok "r".data)
    (some "hi".data) "hi".data "r".data (by decide) (by decide) rfl

end RDA
